import Mathlib

/-!
Shallow embedding of the order-placement / inventory pipeline of the
GRANJACBC backend (blueprints `pedidos.py`, `carrito.py`, `pagos.py`,
`ventas.py`, helper `helpers.py`).

The relational state is a record of lists (one per table, in insertion
order, mirroring MySQL auto-increment via explicit counters).  Each HTTP
handler becomes a pure function `DB → request → DB × Resp _`: an error
branch that the Python code reaches after `conn.rollback()` (or with no
pending writes, so that the final commit of `db_session` commits nothing)
returns the pre-state unchanged; the success branch returns the updated
state.  Monetary values are `Rat`, quantities and ids are `Int` (JSON
integers).  The schema is the one the pipeline files query: a separate
`inventarios` table keyed by `id_producto` with `cantidad_disponible`,
and `productos` columns `nombre_producto`, `precio`, `precio_venta`
(`carrito.py` reads `precio`, `pedidos.py` reads `precio_venta`).
-/

namespace Granja

/-- Row of `clientes` (the columns the pipeline reads). -/
structure Cliente where
  id_cliente : Int
  id_usuario : Int
  direccion : String
  ciudad : String
  telefono : String
  deriving DecidableEq

/-- Row of `productos` (the columns the pipeline reads). -/
structure Producto where
  id_producto : Int
  nombre_producto : String
  precio : Rat
  precio_venta : Rat
  deriving DecidableEq

/-- Row of `inventarios`. -/
structure Inventario where
  id_producto : Int
  cantidad_disponible : Int
  deriving DecidableEq

/-- Row of `carrito`. -/
structure ItemCarrito where
  id_item_carrito : Int
  id_cliente : Int
  id_producto : Int
  cantidad : Int
  deriving DecidableEq

/-- Row of `pedidos`. -/
structure Pedido where
  id_pedido : Int
  id_cliente : Int
  total_pedido : Rat
  estado_pedido : String
  direccion_envio : String
  ciudad_envio : String
  telefono_contacto : String
  deriving DecidableEq

/-- Row of `detalle_pedidos`. -/
structure DetallePedido where
  id_detalle_pedido : Int
  id_pedido : Int
  id_producto : Int
  cantidad : Int
  precio_unitario : Rat
  deriving DecidableEq

/-- Row of `pagos`. -/
structure Pago where
  id_pago : Int
  id_pedido : Int
  monto : Rat
  metodo_pago : String
  estado_pago : String
  transaccion_id : String
  deriving DecidableEq

/-- Row of `estados_venta`. -/
structure EstadoVenta where
  id_estado_venta : Int
  nombre_estado : String
  deriving DecidableEq

/-- Row of `ventas` (the columns `registrar_venta_desde_pedido` writes;
the two address references are always inserted as NULL and omitted). -/
structure Venta where
  id_venta : Int
  id_cliente : Int
  id_usuario : Int
  total : Rat
  id_estado_venta : Int
  deriving DecidableEq

/-- Row of `detalles_venta`. -/
structure DetalleVenta where
  id_detalle_venta : Int
  id_venta : Int
  id_producto : Int
  cantidad : Int
  precio_unitario : Rat
  subtotal : Rat
  deriving DecidableEq

/-- The database state: one list per table plus auto-increment counters. -/
@[ext]
structure DB where
  clientes : List Cliente
  productos : List Producto
  inventarios : List Inventario
  carrito : List ItemCarrito
  pedidos : List Pedido
  detalle_pedidos : List DetallePedido
  pagos : List Pago
  estados_venta : List EstadoVenta
  ventas : List Venta
  detalles_venta : List DetalleVenta
  next_id_pedido : Int
  next_id_detalle_pedido : Int
  next_id_pago : Int
  next_id_item_carrito : Int
  next_id_venta : Int
  next_id_detalle_venta : Int
  deriving DecidableEq

/-- Outcome of a handler: `api_response` with an HTTP status and either a
`data` payload or an error message. -/
inductive Resp (α : Type) where
  | ok (status : Int) (data : α)
  | err (status : Int) (mensaje : String)
  deriving DecidableEq

/-- Whether a response is an error response. -/
def Resp.isErr {α : Type} : Resp α → Bool
  | .err _ _ => true
  | .ok _ _ => false

/-- Helper for `limpiar_string`: fold step splitting a character list
into its whitespace-separated chunks (a run of whitespace produces
empty chunks, filtered out by the caller). -/
def paso_limpiar (c : Char) (acc : List (List Char)) : List (List Char) :=
  if c.isWhitespace then [] :: acc
  else match acc with
    | [] => [[c]]
    | w :: ws => (c :: w) :: ws

/-- Model of `helpers.limpiar_string`: collapse every whitespace run to a
single space and strip the ends (`re.sub` of a whitespace-run pattern
with one space, then `strip`); implemented by structural recursion on
the character list so that it evaluates inside `decide`. -/
def limpiar_string (s : String) : String :=
  String.mk (List.intercalate [' '] ((s.data.foldr paso_limpiar []).filter (fun w => w ≠ [])))

/-- Python `if not x: x = d` applied to an optional string (Python falsiness:
`None` and the empty string pick the default). -/
def orFalsy (o : Option String) (d : String) : String :=
  match o with
  | none => d
  | some s => if s == "" then d else s

/-- Lookup `SELECT id_cliente, ... FROM clientes WHERE id_usuario = %s`. -/
def findCliente (db : DB) (uid : Int) : Option Cliente :=
  db.clientes.find? (fun c => c.id_usuario == uid)

/-- Lookup `SELECT p.precio_venta, i.cantidad_disponible FROM productos p JOIN
inventarios i ON p.id_producto = i.id_producto WHERE p.id_producto = %s
FOR UPDATE` (pedidos.py line 139): the pair (precio_venta,
cantidad_disponible), `none` when the product has no row in either
table. -/
def productoInventario (db : DB) (idp : Int) : Option (Rat × Int) :=
  match db.productos.find? (fun p => p.id_producto == idp),
        db.inventarios.find? (fun i => i.id_producto == idp) with
  | some p, some i => some (p.precio_venta, i.cantidad_disponible)
  | _, _ => none

/-- One element of the request body's `productos` list (fields may be
absent). -/
structure ItemPedido where
  id_producto : Option Int
  cantidad : Option Int
  deriving DecidableEq

/-- Request body of `POST /pedidos/`. -/
structure PedidoReq where
  productos : List ItemPedido
  direccion_envio : Option String
  ciudad_envio : Option String
  telefono_contacto : Option String
  deriving DecidableEq

/-- Validated line (`detalles_para_insertar` entry).  `nombre_producto`
is whatever `product_info.get` returns for the response. -/
structure DetalleVal where
  id_producto : Int
  cantidad : Int
  precio_unitario : Rat
  nombre_producto : String
  deriving DecidableEq

/-- Order line as returned in the `detalles` part of the response. -/
structure DetalleResp where
  id_detalle_pedido : Int
  id_producto : Int
  cantidad : Int
  precio_unitario : Rat
  nombre_producto : String
  deriving DecidableEq

/-- Payload of a successful `POST /pedidos/`. -/
structure PedidoResp where
  pedido : Pedido
  detalles : List DetalleResp
  deriving DecidableEq

/-- The validation loop of `crear_pedido` (pedidos.py lines 127-162):
checks each line's ids, looks up price and stock under lock, accumulates
the running total and the lines to insert.  An `.error` result is a
branch on which the Python code calls `conn.rollback()` and returns a
400 response.  Note that the lookup at line 139 selects only
`precio_venta` and `cantidad_disponible`, so the later
`product_info.get` of the missing key `nombre_producto` always yields
its default `N/A`. -/
def validar_productos (db : DB) :
    List ItemPedido → Rat → List DetalleVal → Except String (Rat × List DetalleVal)
  | [], total, acc => .ok (total, acc)
  | item :: resto, total, acc =>
    match item.id_producto with
    | none => .error ("ID de producto inválido en la lista de productos.")
    | some idp =>
      if idp ≤ 0 then .error ("ID de producto inválido en la lista de productos.")
      else
        match item.cantidad with
        | none => .error ("Cantidad inválida para el producto ID " ++ toString idp ++ ".")
        | some cant =>
          if cant ≤ 0 then
            .error ("Cantidad inválida para el producto ID " ++ toString idp ++ ".")
          else
            match productoInventario db idp with
            | none => .error ("Producto con ID " ++ toString idp ++ " no encontrado.")
            | some pi =>
              if pi.2 < cant then
                .error ("Inventario insuficiente para el producto " ++ toString idp ++ ".")
              else
                validar_productos db resto (total + pi.1 * (cant : Rat))
                  (acc ++ [⟨idp, cant, pi.1, "N/A"⟩])

/-- Insert one `detalle_pedidos` row and apply the
`UPDATE inventarios SET cantidad_disponible = cantidad_disponible - %s
WHERE id_producto = %s` of pedidos.py lines 179-188. -/
def insertar_detalle (db : DB) (idped : Int) (d : DetalleVal) : DB × DetalleResp :=
  let iddet := db.next_id_detalle_pedido
  ({ db with
      detalle_pedidos :=
        db.detalle_pedidos ++ [⟨iddet, idped, d.id_producto, d.cantidad, d.precio_unitario⟩],
      next_id_detalle_pedido := iddet + 1,
      inventarios := db.inventarios.map (fun inv =>
        if inv.id_producto == d.id_producto then
          { inv with cantidad_disponible := inv.cantidad_disponible - d.cantidad }
        else inv) },
   ⟨iddet, d.id_producto, d.cantidad, d.precio_unitario, d.nombre_producto⟩)

/-- The second loop of `crear_pedido` (pedidos.py lines 174-196): insert
every validated line and decrement its inventory row. -/
def insertar_detalles (db : DB) (idped : Int) : List DetalleVal → DB × List DetalleResp
  | [] => (db, [])
  | d :: resto =>
    let r := insertar_detalle db idped d
    let rr := insertar_detalles r.1 idped resto
    (rr.1, r.2 :: rr.2)

/-- The `pedidos` row `crear_pedido` inserts: status `Pendiente`, the
accumulated total, and the shipping snapshot where explicit request
fields win over the customer profile (pedidos.py lines 100-124 and
164-170). -/
def nuevoPedido (db : DB) (cl : Cliente) (req : PedidoReq) (td : Rat × List DetalleVal) : Pedido :=
  ⟨db.next_id_pedido, cl.id_cliente, td.1, "Pendiente",
   orFalsy (req.direccion_envio.map limpiar_string) cl.direccion,
   orFalsy (req.ciudad_envio.map limpiar_string) cl.ciudad,
   orFalsy (req.telefono_contacto.map limpiar_string) cl.telefono⟩

/-- State after the `INSERT INTO pedidos` of pedidos.py line 169. -/
def pedidoInsertado (db : DB) (cl : Cliente) (req : PedidoReq) (td : Rat × List DetalleVal) : DB :=
  { db with
    pedidos := db.pedidos ++ [nuevoPedido db cl req td],
    next_id_pedido := db.next_id_pedido + 1 }

/-- The post-validation tail of `crear_pedido` (pedidos.py lines
164-205): insert the `pedidos` row, insert every line and decrement its
inventory row, then re-select the pedido for the response.  `db` is the
transaction's pre-state, returned unchanged when the re-select finds
nothing (that raise rolls the session back). -/
def crear_pedido_exito (db : DB) (cl : Cliente) (req : PedidoReq) (td : Rat × List DetalleVal) :
    DB × Resp PedidoResp :=
  match (insertar_detalles (pedidoInsertado db cl req td) db.next_id_pedido td.2).1.pedidos.find?
      (fun p => p.id_pedido == db.next_id_pedido) with
  | none => (db, .err 500 "Error interno del servidor al crear el pedido.")
  | some creado =>
    ((insertar_detalles (pedidoInsertado db cl req td) db.next_id_pedido td.2).1,
     .ok 201 ⟨creado, (insertar_detalles (pedidoInsertado db cl req td) db.next_id_pedido td.2).2⟩)

/-- Handler `POST /pedidos/` (`crear_pedido`, pedidos.py lines 93-214).
`db_error` injects a `pymysql.Error` raised between the writes and the
commit; the handler at line 207 rolls the transaction back and answers
500.  Every error branch returns the unchanged pre-state: the code
either has issued no write yet or calls `conn.rollback()` before
returning. -/
def crear_pedido (db : DB) (uid : Int) (req : PedidoReq) (db_error : Bool) :
    DB × Resp PedidoResp :=
  if req.productos.isEmpty then
    (db, .err 400 "La lista de productos es requerida.")
  else
    match findCliente db uid with
    | none => (db, .err 400 "Perfil de cliente no encontrado. Por favor, complete su perfil.")
    | some cl =>
      match validar_productos db req.productos 0 [] with
      | .error m => (db, .err 400 m)
      | .ok td =>
        if db_error then (db, .err 500 "Error de base de datos al crear el pedido.")
        else crear_pedido_exito db cl req td

/-- Request body of `POST /carrito/`. -/
structure CarritoReq where
  id_producto : Option Int
  cantidad : Option Int
  deriving DecidableEq

/-- Lookup `SELECT p.nombre_producto, p.precio, i.cantidad_disponible FROM
productos p JOIN inventarios i ... WHERE p.id_producto = %s`
(carrito.py line 92). -/
def productoInventarioCarrito (db : DB) (idp : Int) : Option (String × Rat × Int) :=
  match db.productos.find? (fun p => p.id_producto == idp),
        db.inventarios.find? (fun i => i.id_producto == idp) with
  | some p, some i => some (p.nombre_producto, p.precio, i.cantidad_disponible)
  | _, _ => none

/-- Cart line as returned by the re-select join of carrito.py line 141
(`fecha_agregado` omitted: the model has no clock). -/
structure CarritoItemResp where
  id_item_carrito : Int
  id_cliente : Int
  id_producto : Int
  cantidad : Int
  nombre_producto : String
  precio_unitario : Rat
  stock_disponible : Int
  deriving DecidableEq

/-- The re-select of the upserted cart row joined with product and
inventory (carrito.py lines 141-152); `fetchone` may find nothing, hence
the `Option`. -/
def carritoItemData (db : DB) (iditem : Int) : Option CarritoItemResp :=
  match db.carrito.find? (fun c => c.id_item_carrito == iditem) with
  | none => none
  | some c =>
    match db.productos.find? (fun p => p.id_producto == c.id_producto),
          db.inventarios.find? (fun i => i.id_producto == c.id_producto) with
    | some p, some i =>
      some ⟨c.id_item_carrito, c.id_cliente, c.id_producto, c.cantidad,
            p.nombre_producto, p.precio, i.cantidad_disponible⟩
    | _, _ => none

/-- Handler `POST /carrito/` (`agregar_producto_al_carrito`, carrito.py lines
68-155): merge `cantidad` into an existing (cliente, producto) cart row
or insert a new one, rejecting quantities that exceed the advisory stock
read. -/
def agregar_producto_al_carrito (db : DB) (uid : Int) (req : CarritoReq) :
    DB × Resp (Option CarritoItemResp) :=
  if req.id_producto.getD 0 == 0 || req.cantidad.getD 0 == 0 then
    (db, .err 400 "El ID del producto y la cantidad son requeridos.")
  else
    match req.id_producto, req.cantidad with
    | some idp, some cant =>
      if idp ≤ 0 then (db, .err 400 "ID de producto inválido.")
      else if cant ≤ 0 then
        (db, .err 400 "La cantidad debe ser un número entero positivo.")
      else
        match findCliente db uid with
        | none =>
          (db, .err 400 "Perfil de cliente no encontrado. Por favor, complete su perfil.")
        | some cl =>
          match productoInventarioCarrito db idp with
          | none => (db, .err 404 "Producto no encontrado.")
          | some info =>
            if info.2.2 < cant then
              (db, .err 400 ("Inventario insuficiente para " ++ info.1 ++ "."))
            else
              match db.carrito.find?
                  (fun c => c.id_cliente == cl.id_cliente && c.id_producto == idp) with
              | some existente =>
                let nueva := existente.cantidad + cant
                if info.2.2 < nueva then
                  (db, .err 400 ("No se puede agregar más. Excede el stock disponible para "
                    ++ info.1 ++ "."))
                else
                  let db1 := { db with carrito := db.carrito.map (fun c =>
                    if c.id_item_carrito == existente.id_item_carrito then
                      { c with cantidad := nueva }
                    else c) }
                  (db1, .ok 201 (carritoItemData db1 existente.id_item_carrito))
              | none =>
                let iditem := db.next_id_item_carrito
                let db1 := { db with
                  carrito := db.carrito ++ [⟨iditem, cl.id_cliente, idp, cant⟩],
                  next_id_item_carrito := iditem + 1 }
                (db1, .ok 201 (carritoItemData db1 iditem))
    | _, _ => (db, .err 400 "El ID del producto y la cantidad son requeridos.")

/-- Request body of `POST /pagos/procesar` (the optional `detalles_pago`
object is read into a variable and never used). -/
structure PagoReq where
  id_pedido : Option Int
  metodo_pago : Option String
  deriving DecidableEq

/-- Payload of a successful `POST /pagos/procesar`. -/
structure PagoResp where
  pago : Pago
  mensaje_pedido : String
  deriving DecidableEq

/-- Handler `POST /pagos/procesar` (`procesar_pago`, pagos.py lines 78-154).
`txid` stands for the `uuid.uuid4()` transaction reference (a
nondeterministic input of the model).  The gateway is simulated: the
payment status is always `Aprobado`, the amount charged is the order's
stored `total_pedido` (the request body carries no amount at all). -/
def procesar_pago (db : DB) (uid : Int) (req : PagoReq) (txid : String) :
    DB × Resp PagoResp :=
  let metodo := req.metodo_pago.map limpiar_string
  if req.id_pedido.getD 0 == 0 || metodo.getD ("") == "" then
    (db, .err 400 "ID de pedido y método de pago son requeridos.")
  else
    match req.id_pedido, metodo with
    | some idped, some met =>
      if idped ≤ 0 then (db, .err 400 "ID de pedido inválido.")
      else
        match findCliente db uid with
        | none =>
          (db, .err 400 "Perfil de cliente no encontrado. Por favor, complete su perfil.")
        | some cl =>
          match db.pedidos.find?
              (fun p => p.id_pedido == idped && p.id_cliente == cl.id_cliente) with
          | none => (db, .err 404 "Pedido no encontrado o no pertenece a este cliente.")
          | some ped =>
            if ped.estado_pedido == "Completado" || ped.estado_pedido == "Cancelado" then
              (db, .err 400 ("El pedido ya está en estado " ++ ped.estado_pedido
                ++ " y no puede ser procesado para pago."))
            else
              let monto := ped.total_pedido
              let idpago := db.next_id_pago
              let db1 := { db with
                pagos := db.pagos ++ [⟨idpago, idped, monto, met, "Aprobado", txid⟩],
                next_id_pago := idpago + 1,
                pedidos := db.pedidos.map (fun p =>
                  if p.id_pedido == idped then { p with estado_pedido := "Completado" }
                  else p) }
              -- conn.commit() happens here (line 134); the re-select below
              -- runs after the commit, so even its failure leaves db1.
              match db1.pagos.find? (fun g => g.id_pago == idpago) with
              | none => (db1, .err 500 "Error interno del servidor al procesar el pago.")
              | some registrado =>
                (db1, .ok 200 ⟨registrado, "Estado del pedido actualizado a Completado."⟩)
    | _, _ => (db, .err 400 "ID de pedido y método de pago son requeridos.")

/-- The `detalles_venta` insertion loop of
`registrar_venta_desde_pedido` (ventas.py lines 481-493): one row per
order line, same product, quantity and unit price, with
`subtotal = cantidad * precio_unitario`. -/
def insertar_detalles_venta (db : DB) (idv : Int) : List DetallePedido → DB
  | [] => db
  | d :: resto =>
    let iddv := db.next_id_detalle_venta
    insertar_detalles_venta
      { db with
        detalles_venta := db.detalles_venta ++
          [⟨iddv, idv, d.id_producto, d.cantidad, d.precio_unitario,
            (d.cantidad : Rat) * d.precio_unitario⟩],
        next_id_detalle_venta := iddv + 1 } idv resto

/-- Helper `registrar_venta_desde_pedido` (ventas.py lines 421-505): copy a
pedido and its lines into `ventas` / `detalles_venta` inside the
caller's session.  Returns `false` (performing no write) when the
pedido, its cliente join row, or the `Completado` sale state is
missing.  The inserted `id_usuario` is the cliente's
(`id_usuario_cliente` in the source).  Nothing checks for an existing
venta for the same pedido: the guard at line 497 is commented out. -/
def registrar_venta_desde_pedido (db : DB) (idped : Int) : DB × Bool :=
  match db.pedidos.find? (fun p => p.id_pedido == idped) with
  | none => (db, false)
  | some ped =>
    match db.clientes.find? (fun c => c.id_cliente == ped.id_cliente) with
    | none => (db, false)
    | some cl =>
      match db.estados_venta.find? (fun e => e.nombre_estado == "Completado") with
      | none => (db, false)
      | some ev =>
        let idv := db.next_id_venta
        let db1 := { db with
          ventas := db.ventas ++
            [⟨idv, ped.id_cliente, cl.id_usuario, ped.total_pedido, ev.id_estado_venta⟩],
          next_id_venta := idv + 1 }
        let lineas := db1.detalle_pedidos.filter (fun d => d.id_pedido == idped)
        (insertar_detalles_venta db1 idv lineas, true)

/-! ### Concrete fixtures (used by witnesses and counterexamples) -/

/-- A small concrete database: one customer (usuario 3), products X
(id 1, price 10, stock 5) and Y (id 2, price 5, stock 1), the
`Completado` sale state, empty transactional tables. -/
def dbA : DB :=
  { clientes := [⟨7, 3, "Calle 1", "Cali", "300"⟩]
    productos := [⟨1, "Mango", 10, 10⟩, ⟨2, "Lulo", 5, 5⟩]
    inventarios := [⟨1, 5⟩, ⟨2, 1⟩]
    carrito := []
    pedidos := []
    detalle_pedidos := []
    pagos := []
    estados_venta := [⟨1, "Completado"⟩]
    ventas := []
    detalles_venta := []
    next_id_pedido := 1
    next_id_detalle_pedido := 1
    next_id_pago := 1
    next_id_item_carrito := 1
    next_id_venta := 1
    next_id_detalle_venta := 1 }

/-- Order request: 2 of product X and 1 of product Y, no shipping
overrides (the spec's two-line scenario). -/
def reqXY : PedidoReq :=
  { productos := [⟨some 1, some 2⟩, ⟨some 2, some 1⟩]
    direccion_envio := none, ciudad_envio := none, telefono_contacto := none }

/-- Order request asking for 6 of product X (stock 5). -/
def reqZ6 : PedidoReq :=
  { productos := [⟨some 1, some 6⟩]
    direccion_envio := none, ciudad_envio := none, telefono_contacto := none }

/-- Fixture `dbA` with a single product A (id 1, price 10, stock 10) — the
spec's cart scenario. -/
def dbCart : DB := { dbA with productos := [⟨1, "A", 10, 10⟩], inventarios := [⟨1, 10⟩] }

/-- Fixture: `dbCart` with product A already in the customer's cart at
quantity 4. -/
def dbCart4 : DB := { dbCart with carrito := [⟨1, 7, 1, 4⟩], next_id_item_carrito := 2 }

/-- Fixture: `dbCart` with product A already in the customer's cart at
quantity 8. -/
def dbCart8 : DB := { dbCart with carrito := [⟨1, 7, 1, 8⟩], next_id_item_carrito := 2 }

/-- Fixture: the state `crear_pedido` leaves after the two-line order
`reqXY` on `dbA` — order total 25, stocks decremented to 3 and 0
(written out literally so that witnesses can evaluate by `decide`). -/
def dbPedido : DB :=
  { dbA with
    inventarios := [⟨1, 3⟩, ⟨2, 0⟩]
    pedidos := [⟨1, 7, 25, "Pendiente", "Calle 1", "Cali", "300"⟩]
    detalle_pedidos := [⟨1, 1, 1, 2, 10⟩, ⟨2, 1, 2, 1, 5⟩]
    next_id_pedido := 2
    next_id_detalle_pedido := 3 }

/-- Fixture: `dbPedido` after paying order 1 — payment of 25 approved,
order completed. -/
def dbPagado : DB :=
  { dbPedido with
    pagos := [⟨1, 1, 25, "Tarjeta", "Aprobado", "tx-1"⟩]
    pedidos := [⟨1, 7, 25, "Completado", "Calle 1", "Cali", "300"⟩]
    next_id_pago := 2 }

/-! ### Characterizations of the loops -/

/-- The `detalle_pedidos` rows the insertion loop of `crear_pedido`
appends, with `id_detalle_pedido` counted from `n`. -/
def filasDetalle (n idped : Int) : List DetalleVal → List DetallePedido
  | [] => []
  | d :: resto =>
    ⟨n, idped, d.id_producto, d.cantidad, d.precio_unitario⟩ :: filasDetalle (n + 1) idped resto

/-- The response lines the insertion loop of `crear_pedido` collects. -/
def filasResp (n : Int) : List DetalleVal → List DetalleResp
  | [] => []
  | d :: resto =>
    ⟨n, d.id_producto, d.cantidad, d.precio_unitario, d.nombre_producto⟩ :: filasResp (n + 1) resto

/-- Total quantity the validated lines order of product `p`. -/
def sumCant : List DetalleVal → Int → Int
  | [], _ => 0
  | d :: resto, p => (if d.id_producto == p then d.cantidad else 0) + sumCant resto p

/-- The running total `crear_pedido` accumulates over the validated
lines (`total_pedido += precio_unitario * cantidad`). -/
def sumTotal : List DetalleVal → Rat
  | [] => 0
  | d :: resto => d.precio_unitario * (d.cantidad : Rat) + sumTotal resto

/-- Sum of quantity × captured unit price over `detalle_pedidos` rows. -/
def sumSubtotales : List DetallePedido → Rat
  | [] => 0
  | d :: resto => (d.cantidad : Rat) * d.precio_unitario + sumSubtotales resto

/-- One iteration of the validation loop of `crear_pedido` in isolation:
`some` exactly when the line passes every check of pedidos.py lines
127-154, returning the `detalles_para_insertar` entry it records. -/
def lineaVal (db : DB) (item : ItemPedido) : Option DetalleVal :=
  match item.id_producto, item.cantidad with
  | some idp, some cant =>
    if idp ≤ 0 then none
    else if cant ≤ 0 then none
    else
      match productoInventario db idp with
      | none => none
      | some pi => if pi.2 < cant then none else some ⟨idp, cant, pi.1, "N/A"⟩
  | _, _ => none

/-- A request line whose ids are valid and whose product (with
inventory row) exists. -/
def basicOk (db : DB) (item : ItemPedido) : Prop :=
  ∃ idp cant precio disp, item.id_producto = some idp ∧ 0 < idp ∧
    item.cantidad = some cant ∧ 0 < cant ∧ productoInventario db idp = some (precio, disp)

/-- A request line asking for more than the available quantity read
under lock. -/
def excede (db : DB) (item : ItemPedido) : Prop :=
  ∃ idp cant pi, item.id_producto = some idp ∧ item.cantidad = some cant ∧
    productoInventario db idp = some pi ∧ pi.2 < cant

/-- The `detalles_venta` rows `registrar_venta_desde_pedido` appends for
the order lines, ids counted from `n`. -/
def filasVenta (n idv : Int) : List DetallePedido → List DetalleVenta
  | [] => []
  | d :: resto =>
    ⟨n, idv, d.id_producto, d.cantidad, d.precio_unitario,
     (d.cantidad : Rat) * d.precio_unitario⟩ :: filasVenta (n + 1) idv resto

theorem insertar_detalles_eq (dets : List DetalleVal) (db : DB) (idped : Int) :
    (insertar_detalles db idped dets).1 =
      { db with
        detalle_pedidos :=
          db.detalle_pedidos ++ filasDetalle db.next_id_detalle_pedido idped dets,
        next_id_detalle_pedido := db.next_id_detalle_pedido + dets.length,
        inventarios := db.inventarios.map (fun inv =>
          { inv with cantidad_disponible :=
              inv.cantidad_disponible - sumCant dets inv.id_producto }) } := by
  induction dets generalizing db with
  | nil =>
    simp only [insertar_detalles, filasDetalle, List.append_nil, List.length_nil,
      Nat.cast_zero, add_zero, sumCant, sub_zero]
    cases db with
    | mk _ _ _ _ _ _ _ _ _ _ _ _ _ _ _ _ => simp
  | cons d resto ih =>
    simp only [insertar_detalles, insertar_detalle, ih, filasDetalle, List.length_cons]
    cases db with
    | mk f1 f2 f3 f4 f5 f6 f7 f8 f9 f10 g1 g2 g3 g4 g5 g6 =>
      simp only [DB.mk.injEq, List.map_map, List.append_assoc, List.singleton_append,
        List.length_cons, eq_self_iff_true, true_and, and_true]
      refine ⟨?_, ?_⟩
      · refine List.map_congr_left (fun a _ => ?_)
        cases a with
        | mk idp c =>
          simp only [Function.comp_apply, sumCant]
          by_cases h : idp = d.id_producto
          · subst h
            simp [sub_sub]
          · have h1 : (idp == d.id_producto) = false := by simp [h]
            have h2 : (d.id_producto == idp) = false := by
              simp
              exact fun e => h e.symm
            simp [h1, h2]
      · push_cast
        ring

theorem insertar_detalles_snd (dets : List DetalleVal) (db : DB) (idped : Int) :
    (insertar_detalles db idped dets).2 = filasResp db.next_id_detalle_pedido dets := by
  induction dets generalizing db with
  | nil => simp [insertar_detalles, filasResp]
  | cons d resto ih => simp [insertar_detalles, insertar_detalle, ih, filasResp]

theorem crear_pedido_cases (db : DB) (uid : Int) (req : PedidoReq) (e : Bool) :
    ((crear_pedido db uid req e).1 = db ∧ (crear_pedido db uid req e).2.isErr = true) ∨
    (∃ cl td, findCliente db uid = some cl ∧
      validar_productos db req.productos 0 [] = Except.ok td ∧ e = false ∧
      crear_pedido db uid req e = crear_pedido_exito db cl req td) := by
  cases hE : req.productos.isEmpty with
  | true => left; simp [crear_pedido, hE, Resp.isErr]
  | false =>
    cases hcl : findCliente db uid with
    | none => left; simp [crear_pedido, hE, hcl, Resp.isErr]
    | some cl =>
      cases hv : validar_productos db req.productos 0 [] with
      | error m => left; simp [crear_pedido, hE, hcl, hv, Resp.isErr]
      | ok td =>
        cases e with
        | true => left; simp [crear_pedido, hE, hcl, hv, Resp.isErr]
        | false => exact Or.inr ⟨cl, td, rfl, rfl, rfl, by simp [crear_pedido, hE, hcl, hv]⟩

theorem crear_pedido_exito_err (db : DB) (cl : Cliente) (req : PedidoReq)
    (td : Rat × List DetalleVal)
    (h : (crear_pedido_exito db cl req td).2.isErr = true) :
    (crear_pedido_exito db cl req td).1 = db := by
  unfold crear_pedido_exito at h ⊢
  split at h
  · next heq => simp only [heq]
  · next creado heq =>
    simp only [Resp.isErr] at h
    exact absurd h (by decide)

theorem crear_pedido_exito_carrito (db : DB) (cl : Cliente) (req : PedidoReq)
    (td : Rat × List DetalleVal) :
    (crear_pedido_exito db cl req td).1.carrito = db.carrito := by
  unfold crear_pedido_exito
  split
  · rfl
  · next creado heq => simp [insertar_detalles_eq, pedidoInsertado]

theorem validar_productos_carrito_indep (db : DB) (cart : List ItemCarrito) :
    ∀ (items : List ItemPedido) (t : Rat) (acc : List DetalleVal),
      validar_productos { db with carrito := cart } items t acc =
        validar_productos db items t acc := by
  intro items
  induction items with
  | nil => intro t acc; rfl
  | cons item resto ih =>
    intro t acc
    have hpi : ∀ idp, productoInventario { db with carrito := cart } idp =
        productoInventario db idp := fun _ => rfl
    simp only [validar_productos, hpi, ih]

theorem insertar_detalles_carrito_indep (dets : List DetalleVal) (db : DB) (idped : Int)
    (cart : List ItemCarrito) :
    insertar_detalles { db with carrito := cart } idped dets =
      ({ (insertar_detalles db idped dets).1 with carrito := cart },
       (insertar_detalles db idped dets).2) := by
  refine Prod.ext ?_ ?_
  · rw [insertar_detalles_eq, insertar_detalles_eq]
  · rw [insertar_detalles_snd, insertar_detalles_snd]

theorem crear_pedido_exito_carrito_indep (db : DB) (cl : Cliente) (req : PedidoReq)
    (td : Rat × List DetalleVal) (cart : List ItemCarrito) :
    crear_pedido_exito { db with carrito := cart } cl req td =
      ({ (crear_pedido_exito db cl req td).1 with carrito := cart },
       (crear_pedido_exito db cl req td).2) := by
  have hped : pedidoInsertado { db with carrito := cart } cl req td =
      { pedidoInsertado db cl req td with carrito := cart } := rfl
  unfold crear_pedido_exito
  rw [hped, insertar_detalles_carrito_indep]
  dsimp only
  cases hf : (insertar_detalles (pedidoInsertado db cl req td) db.next_id_pedido td.2).1.pedidos.find?
      (fun p => p.id_pedido == db.next_id_pedido) with
  | none => simp [hf]
  | some creado => simp [hf]

/-- C1: whenever `crear_pedido` answers an error — invalid line item,
missing product, insufficient stock on any line, or a database error
before commit — the post-state equals the pre-state; in particular
`pedidos`, `detalle_pedidos` and `inventarios` are untouched. -/
theorem c1_crear_pedido_atomico (db : DB) (uid : Int) (req : PedidoReq) (e : Bool)
    (h : (crear_pedido db uid req e).2.isErr = true) :
    (crear_pedido db uid req e).1 = db ∧
    (crear_pedido db uid req e).1.pedidos = db.pedidos ∧
    (crear_pedido db uid req e).1.detalle_pedidos = db.detalle_pedidos ∧
    (crear_pedido db uid req e).1.inventarios = db.inventarios := by
  have key : (crear_pedido db uid req e).1 = db := by
    rcases crear_pedido_cases db uid req e with ⟨h1, _⟩ | ⟨cl, td, _, _, _, heq⟩
    · exact h1
    · rw [heq] at h ⊢
      exact crear_pedido_exito_err db cl req td h
  exact ⟨key, by rw [key], by rw [key], by rw [key]⟩

/-- Witness for C1: ordering 6 of product X (stock 5) in `dbA` fails
with insufficient stock and leaves the state unchanged. -/
theorem c1_crear_pedido_atomico_witness :
    (crear_pedido dbA 3 reqZ6 false).2.isErr = true ∧
    (crear_pedido dbA 3 reqZ6 false).1 = dbA :=
  ⟨by decide, (c1_crear_pedido_atomico dbA 3 reqZ6 false (by decide)).1⟩

/-- C10: `crear_pedido` neither writes nor reads the cart: the
`carrito` table after any invocation (successful or not) is exactly the
pre-state's, and replacing the cart contents changes neither the
response nor anything else in the post-state. -/
theorem c10_crear_pedido_carrito_intacto (db : DB) (uid : Int) (req : PedidoReq) (e : Bool) :
    (crear_pedido db uid req e).1.carrito = db.carrito ∧
    ∀ cart : List ItemCarrito,
      crear_pedido { db with carrito := cart } uid req e =
        ({ (crear_pedido db uid req e).1 with carrito := cart },
         (crear_pedido db uid req e).2) := by
  constructor
  · rcases crear_pedido_cases db uid req e with ⟨h1, _⟩ | ⟨cl, td, _, _, _, heq⟩
    · rw [h1]
    · rw [heq]; exact crear_pedido_exito_carrito db cl req td
  · intro cart
    have hcl : findCliente { db with carrito := cart } uid = findCliente db uid := rfl
    cases hE : req.productos.isEmpty with
    | true => simp [crear_pedido, hE]
    | false =>
      cases hfc : findCliente db uid with
      | none => simp [crear_pedido, hE, hcl, hfc]
      | some cl =>
        cases hv : validar_productos db req.productos 0 [] with
        | error m =>
          simp [crear_pedido, hE, hcl, hfc, validar_productos_carrito_indep, hv]
        | ok td =>
          cases e with
          | true => simp [crear_pedido, hE, hcl, hfc, validar_productos_carrito_indep, hv]
          | false =>
            simp only [crear_pedido, hE, hcl, hfc, validar_productos_carrito_indep, hv,
              Bool.false_eq_true, if_false]
            exact crear_pedido_exito_carrito_indep db cl req td cart

/-- C9 (code bug): the success payload of `crear_pedido` is supposed to
carry each line enriched with the product name, but the lookup at
pedidos.py line 139 never selects a name column, so
`product_info.get` at line 161 always falls back to `N/A`: for the
concrete two-line order the products are named Mango and Lulo yet every
returned `nombre_producto` is `N/A`. -/
theorem c9_nombre_producto_es_na :
    (crear_pedido dbA 3 reqXY false).2.isErr = false ∧
    (match (crear_pedido dbA 3 reqXY false).2 with
     | Resp.ok _ pl => pl.detalles.map (fun d => d.nombre_producto)
     | Resp.err _ _ => []) = [("N/A" : String), "N/A"] ∧
    dbA.productos.map (fun p => p.nombre_producto) = [("Mango" : String), "Lulo"] := by
  decide

theorem insertar_detalles_venta_eq (lin : List DetallePedido) (db : DB) (idv : Int) :
    insertar_detalles_venta db idv lin =
      { db with
        detalles_venta := db.detalles_venta ++ filasVenta db.next_id_detalle_venta idv lin,
        next_id_detalle_venta := db.next_id_detalle_venta + lin.length } := by
  induction lin generalizing db with
  | nil =>
    simp only [insertar_detalles_venta, filasVenta, List.append_nil, List.length_nil,
      Nat.cast_zero, add_zero]
  | cons d resto ih =>
    simp only [insertar_detalles_venta, ih, filasVenta, List.length_cons]
    cases db with
    | mk f1 f2 f3 f4 f5 f6 f7 f8 f9 f10 g1 g2 g3 g4 g5 g6 =>
      simp only [DB.mk.injEq, List.append_assoc, List.singleton_append, eq_self_iff_true,
        true_and, and_true]
      push_cast
      ring

theorem registrar_venta_eq (db : DB) (idped : Int) (ped : Pedido) (cl : Cliente)
    (ev : EstadoVenta)
    (hp : db.pedidos.find? (fun p => p.id_pedido == idped) = some ped)
    (hc : db.clientes.find? (fun c => c.id_cliente == ped.id_cliente) = some cl)
    (he : db.estados_venta.find? (fun e => e.nombre_estado == "Completado") = some ev) :
    registrar_venta_desde_pedido db idped =
      ({ db with
          ventas := db.ventas ++
            [⟨db.next_id_venta, ped.id_cliente, cl.id_usuario, ped.total_pedido,
              ev.id_estado_venta⟩],
          next_id_venta := db.next_id_venta + 1,
          detalles_venta := db.detalles_venta ++
            filasVenta db.next_id_detalle_venta db.next_id_venta
              (db.detalle_pedidos.filter (fun d => d.id_pedido == idped)),
          next_id_detalle_venta := db.next_id_detalle_venta +
            (db.detalle_pedidos.filter (fun d => d.id_pedido == idped)).length },
       true) := by
  simp only [registrar_venta_desde_pedido, hp, hc, he, insertar_detalles_venta_eq]

theorem filasVenta_forall2 (lin : List DetallePedido) (n idv : Int) :
    List.Forall₂ (fun (d : DetallePedido) (v : DetalleVenta) =>
      v.id_producto = d.id_producto ∧ v.cantidad = d.cantidad ∧
      v.precio_unitario = d.precio_unitario ∧
      v.subtotal = (d.cantidad : Rat) * d.precio_unitario)
      lin (filasVenta n idv lin) := by
  induction lin generalizing n with
  | nil => simp [filasVenta]
  | cons d resto ih =>
    rw [filasVenta]
    exact List.Forall₂.cons ⟨rfl, rfl, rfl, rfl⟩ (ih (n + 1))

/-- C6: a successful `registrar_venta_desde_pedido` appends one `ventas`
row whose total is the order's total, and one `detalles_venta` row per
order line carrying the same product id, quantity and unit price, with
subtotal equal to quantity times unit price. -/
theorem c6_venta_copia_el_pedido (db : DB) (idped : Int) (ped : Pedido) (cl : Cliente)
    (ev : EstadoVenta)
    (hp : db.pedidos.find? (fun p => p.id_pedido == idped) = some ped)
    (hc : db.clientes.find? (fun c => c.id_cliente == ped.id_cliente) = some cl)
    (he : db.estados_venta.find? (fun e => e.nombre_estado == "Completado") = some ev) :
    (registrar_venta_desde_pedido db idped).2 = true ∧
    (∃ v : Venta,
      (registrar_venta_desde_pedido db idped).1.ventas = db.ventas ++ [v] ∧
      v.total = ped.total_pedido) ∧
    (∃ filas,
      (registrar_venta_desde_pedido db idped).1.detalles_venta = db.detalles_venta ++ filas ∧
      List.Forall₂ (fun (d : DetallePedido) (v : DetalleVenta) =>
        v.id_producto = d.id_producto ∧ v.cantidad = d.cantidad ∧
        v.precio_unitario = d.precio_unitario ∧
        v.subtotal = (d.cantidad : Rat) * d.precio_unitario)
        (db.detalle_pedidos.filter (fun d => d.id_pedido == idped)) filas) := by
  rw [registrar_venta_eq db idped ped cl ev hp hc he]
  refine ⟨rfl, ⟨⟨db.next_id_venta, ped.id_cliente, cl.id_usuario, ped.total_pedido,
    ev.id_estado_venta⟩, rfl, rfl⟩,
    ⟨filasVenta db.next_id_detalle_venta db.next_id_venta
      (db.detalle_pedidos.filter (fun d => d.id_pedido == idped)), rfl,
     filasVenta_forall2 _ _ _⟩⟩

/-- Witness for C6 on the concrete two-line order of `dbPedido`. -/
theorem c6_venta_copia_el_pedido_witness :
    (registrar_venta_desde_pedido dbPedido 1).2 = true ∧
    (∃ v : Venta,
      (registrar_venta_desde_pedido dbPedido 1).1.ventas = dbPedido.ventas ++ [v] ∧
      v.total = (25 : Rat)) ∧
    (∃ filas,
      (registrar_venta_desde_pedido dbPedido 1).1.detalles_venta =
        dbPedido.detalles_venta ++ filas ∧
      List.Forall₂ (fun (d : DetallePedido) (v : DetalleVenta) =>
        v.id_producto = d.id_producto ∧ v.cantidad = d.cantidad ∧
        v.precio_unitario = d.precio_unitario ∧
        v.subtotal = (d.cantidad : Rat) * d.precio_unitario)
        (dbPedido.detalle_pedidos.filter (fun d => d.id_pedido == 1)) filas) :=
  c6_venta_copia_el_pedido dbPedido 1 ⟨1, 7, 25, "Pendiente", "Calle 1", "Cali", "300"⟩
    ⟨7, 3, "Calle 1", "Cali", "300"⟩ ⟨1, "Completado"⟩ (by decide) (by decide) (by decide)

/-- Counterexample to C7 as stated: materializing the same order twice
leaves two `ventas` rows, not one — nothing in
`registrar_venta_desde_pedido` checks for an existing sale. -/
theorem c7_venta_duplicada_counterexample :
    (registrar_venta_desde_pedido dbPedido 1).2 = true ∧
    (registrar_venta_desde_pedido (registrar_venta_desde_pedido dbPedido 1).1 1).2 = true ∧
    (registrar_venta_desde_pedido
      (registrar_venta_desde_pedido dbPedido 1).1 1).1.ventas.length = 2 := by
  decide

/-- C7 amended: `registrar_venta_desde_pedido` is not idempotent —
every qualifying invocation appends one more `ventas` row, so invoking
it twice for the same order id appends two. -/
theorem c7_venta_no_idempotente (db : DB) (idped : Int) (ped : Pedido) (cl : Cliente)
    (ev : EstadoVenta)
    (hp : db.pedidos.find? (fun p => p.id_pedido == idped) = some ped)
    (hc : db.clientes.find? (fun c => c.id_cliente == ped.id_cliente) = some cl)
    (he : db.estados_venta.find? (fun e => e.nombre_estado == "Completado") = some ev) :
    (registrar_venta_desde_pedido (registrar_venta_desde_pedido db idped).1 idped).2 = true ∧
    (registrar_venta_desde_pedido
      (registrar_venta_desde_pedido db idped).1 idped).1.ventas.length =
      db.ventas.length + 2 := by
  rw [registrar_venta_eq db idped ped cl ev hp hc he]
  dsimp only
  rw [registrar_venta_eq
    { db with
      ventas := db.ventas ++
        [⟨db.next_id_venta, ped.id_cliente, cl.id_usuario, ped.total_pedido,
          ev.id_estado_venta⟩],
      next_id_venta := db.next_id_venta + 1,
      detalles_venta := db.detalles_venta ++
        filasVenta db.next_id_detalle_venta db.next_id_venta
          (db.detalle_pedidos.filter (fun d => d.id_pedido == idped)),
      next_id_detalle_venta := db.next_id_detalle_venta +
        (db.detalle_pedidos.filter (fun d => d.id_pedido == idped)).length }
    idped ped cl ev hp hc he]
  constructor
  · rfl
  · simp

/-- Witness for the amended C7 on the concrete order of `dbPedido`. -/
theorem c7_venta_no_idempotente_witness :
    (registrar_venta_desde_pedido (registrar_venta_desde_pedido dbPedido 1).1 1).2 = true ∧
    (registrar_venta_desde_pedido
      (registrar_venta_desde_pedido dbPedido 1).1 1).1.ventas.length =
      dbPedido.ventas.length + 2 :=
  c7_venta_no_idempotente dbPedido 1 ⟨1, 7, 25, "Pendiente", "Calle 1", "Cali", "300"⟩
    ⟨7, 3, "Calle 1", "Cali", "300"⟩ ⟨1, "Completado"⟩ (by decide) (by decide) (by decide)

/-- C4: paying an order that is already `Completado` or `Cancelado`
fails with HTTP 400 before any write: no `pagos` row is inserted and
the order's status (indeed the whole state) is untouched, so a second
payment attempt on an already-paid order creates no second payment. -/
theorem c4_pago_pedido_terminal (db : DB) (uid : Int) (req : PagoReq) (txid : String)
    (cl : Cliente) (ped : Pedido) (idped : Int) (met : String)
    (hid : req.id_pedido = some idped) (hpos : 0 < idped)
    (hmet : req.metodo_pago = some met) (hmet2 : limpiar_string met ≠ "")
    (hcl : findCliente db uid = some cl)
    (hped : db.pedidos.find?
      (fun p => p.id_pedido == idped && p.id_cliente == cl.id_cliente) = some ped)
    (hterm : ped.estado_pedido = "Completado" ∨ ped.estado_pedido = "Cancelado") :
    (∃ m, procesar_pago db uid req txid = (db, Resp.err 400 m)) ∧
    (procesar_pago db uid req txid).1.pagos = db.pagos ∧
    (procesar_pago db uid req txid).1.pedidos = db.pedidos := by
  have h1 : (idped == 0) = false := by simp; omega
  have h2 : (limpiar_string met == "") = false := by simpa using hmet2
  have hterm2 : (ped.estado_pedido == "Completado" || ped.estado_pedido == "Cancelado") = true := by
    rcases hterm with h | h <;> simp [h]
  have hbranch : procesar_pago db uid req txid =
      (db, Resp.err 400 ("El pedido ya está en estado " ++ ped.estado_pedido
        ++ " y no puede ser procesado para pago.")) := by
    simp [procesar_pago, hid, hmet, h1, h2, hcl, hped, hterm2,
      show ¬idped ≤ 0 from by omega]
  exact ⟨⟨_, hbranch⟩, by rw [hbranch], by rw [hbranch]⟩

/-- Witness for C4: a second payment attempt on the already-paid order
of `dbPagado` answers 400 and leaves `pagos` (one row) and the order
untouched. -/
theorem c4_pago_pedido_terminal_witness :
    (∃ m, procesar_pago dbPagado 3 ⟨some 1, some ("Tarjeta")⟩ "tx-2" =
      (dbPagado, Resp.err 400 m)) ∧
    (procesar_pago dbPagado 3 ⟨some 1, some ("Tarjeta")⟩ "tx-2").1.pagos = dbPagado.pagos ∧
    (procesar_pago dbPagado 3 ⟨some 1, some ("Tarjeta")⟩ "tx-2").1.pedidos =
      dbPagado.pedidos :=
  c4_pago_pedido_terminal dbPagado 3 ⟨some 1, some ("Tarjeta")⟩ "tx-2"
    ⟨7, 3, "Calle 1", "Cali", "300"⟩ ⟨1, 7, 25, "Completado", "Calle 1", "Cali", "300"⟩
    1 ("Tarjeta") rfl (by decide) rfl (by decide) (by decide) (by decide) (Or.inl rfl)

/-- C5: a successful payment on a non-terminal owned order records a
payment whose `monto` is the order's stored `total_pedido` (the request
body carries no amount at all), with status `Aprobado`, and flips the
order's status to `Completado`. -/
theorem c5_pago_monto_es_total (db : DB) (uid : Int) (req : PagoReq) (txid : String)
    (cl : Cliente) (ped : Pedido) (idped : Int) (met : String)
    (hid : req.id_pedido = some idped) (hpos : 0 < idped)
    (hmet : req.metodo_pago = some met) (hmet2 : limpiar_string met ≠ "")
    (hcl : findCliente db uid = some cl)
    (hped : db.pedidos.find?
      (fun p => p.id_pedido == idped && p.id_cliente == cl.id_cliente) = some ped)
    (hnc : ped.estado_pedido ≠ "Completado") (hnc2 : ped.estado_pedido ≠ "Cancelado")
    (hfresh : db.pagos.find? (fun g => g.id_pago == db.next_id_pago) = none) :
    procesar_pago db uid req txid =
      ({ db with
          pagos := db.pagos ++
            [⟨db.next_id_pago, idped, ped.total_pedido, limpiar_string met, "Aprobado", txid⟩],
          next_id_pago := db.next_id_pago + 1,
          pedidos := db.pedidos.map (fun p =>
            if p.id_pedido == idped then { p with estado_pedido := "Completado" } else p) },
       Resp.ok 200
         ⟨⟨db.next_id_pago, idped, ped.total_pedido, limpiar_string met, "Aprobado", txid⟩,
          "Estado del pedido actualizado a Completado."⟩) := by
  have h1 : (idped == 0) = false := by simp; omega
  have h2 : (limpiar_string met == "") = false := by simpa using hmet2
  have hterm : (ped.estado_pedido == "Completado" || ped.estado_pedido == "Cancelado") = false := by
    simp [hnc, hnc2]
  have hfind : (db.pagos ++
      [(⟨db.next_id_pago, idped, ped.total_pedido, limpiar_string met, "Aprobado", txid⟩ :
        Pago)]).find? (fun g => g.id_pago == db.next_id_pago) =
      some ⟨db.next_id_pago, idped, ped.total_pedido, limpiar_string met, "Aprobado", txid⟩ := by
    rw [List.find?_append, hfresh]
    simp
  simp [procesar_pago, hid, hmet, h1, h2, hcl, hped, hterm, hfind,
    show ¬idped ≤ 0 from by omega]

/-- Witness for C5: paying the pending order of total 25 in `dbPedido`
records a payment of 25, `Aprobado`, and completes the order. -/
theorem c5_pago_monto_es_total_witness :
    procesar_pago dbPedido 3 ⟨some 1, some ("Tarjeta")⟩ "tx-1" =
      ({ dbPedido with
          pagos := dbPedido.pagos ++
            [⟨dbPedido.next_id_pago, 1, (25 : Rat), limpiar_string ("Tarjeta"), "Aprobado",
              "tx-1"⟩],
          next_id_pago := dbPedido.next_id_pago + 1,
          pedidos := dbPedido.pedidos.map (fun p =>
            if p.id_pedido == 1 then { p with estado_pedido := "Completado" } else p) },
       Resp.ok 200
         ⟨⟨dbPedido.next_id_pago, 1, (25 : Rat), limpiar_string ("Tarjeta"), "Aprobado", "tx-1"⟩,
          "Estado del pedido actualizado a Completado."⟩) :=
  c5_pago_monto_es_total dbPedido 3 ⟨some 1, some ("Tarjeta")⟩ "tx-1"
    ⟨7, 3, "Calle 1", "Cali", "300"⟩ ⟨1, 7, 25, "Pendiente", "Calle 1", "Cali", "300"⟩
    1 ("Tarjeta") rfl (by decide) rfl (by decide) (by decide) (by decide)
    (by decide) (by decide) (by decide)

theorem validar_productos_ok (db : DB) :
    ∀ (items : List ItemPedido) (dets : List DetalleVal) (t : Rat) (acc : List DetalleVal),
      items.mapM (lineaVal db) = some dets →
      validar_productos db items t acc = .ok (t + sumTotal dets, acc ++ dets) := by
  intro items
  induction items with
  | nil =>
    intro dets t acc h
    simp only [List.mapM_nil, pure, Option.some.injEq] at h
    subst h
    simp [validar_productos, sumTotal]
  | cons item resto ih =>
    intro dets t acc h
    rw [List.mapM_cons] at h
    cases hl : lineaVal db item with
    | none => rw [hl] at h; simp at h
    | some d =>
      rw [hl] at h
      cases hr : resto.mapM (lineaVal db) with
      | none => rw [hr] at h; simp at h
      | some ds =>
        rw [hr] at h
        simp at h
        subst h
        unfold lineaVal at hl
        cases hip : item.id_producto with
        | none => rw [hip] at hl; simp at hl
        | some idp =>
          cases hic : item.cantidad with
          | none => rw [hip, hic] at hl; simp at hl
          | some cant =>
            rw [hip, hic] at hl
            by_cases hp1 : idp ≤ 0
            · simp [hp1] at hl
            · by_cases hp2 : cant ≤ 0
              · simp [hp1, hp2] at hl
              · cases hpi : productoInventario db idp with
                | none => simp [hp1, hp2, hpi] at hl
                | some pi =>
                  by_cases hp3 : pi.2 < cant
                  · simp [hp1, hp2, hpi, hp3] at hl
                  · simp only [hp1, hp2, hpi, hp3, if_neg, if_false, not_false_iff,
                      Option.some.injEq] at hl
                    subst hl
                    simp only [validar_productos, hip, hic, hpi, if_neg hp1, if_neg hp2,
                      if_neg hp3]
                    rw [ih ds _ _ hr]
                    simp [sumTotal, add_assoc, List.append_assoc]


theorem validar_productos_insuficiente (db : DB) :
    ∀ (items : List ItemPedido) (t : Rat) (acc : List DetalleVal),
      (∀ item ∈ items, basicOk db item) →
      (∃ item ∈ items, excede db item) →
      ∃ m, validar_productos db items t acc = .error m := by
  intro items
  induction items with
  | nil => intro t acc _ hex; simp at hex
  | cons item resto ih =>
    intro t acc hall hex
    obtain ⟨idp, cant, precio, disp, hip, hipos, hic, hcpos, hpi⟩ :=
      hall item (List.mem_cons_self item resto)
    by_cases hstock : disp < cant
    · refine ⟨"Inventario insuficiente para el producto " ++ toString idp ++ ".", ?_⟩
      simp only [validar_productos, hip, hic, hpi, if_neg (by omega : ¬idp ≤ 0),
        if_neg (by omega : ¬cant ≤ 0)]
      rw [if_pos hstock]
    · have hex2 : ∃ it ∈ resto, excede db it := by
        rcases hex with ⟨it, hmem, hexc⟩
        rcases List.mem_cons.mp hmem with hcase | hcase
        · subst hcase
          obtain ⟨idp2, cant2, pi2, hip2, hic2, hpi2, hlt⟩ := hexc
          rw [hip] at hip2
          rw [hic] at hic2
          injection hip2 with e1
          injection hic2 with e2
          subst e1
          subst e2
          rw [hpi] at hpi2
          injection hpi2 with e3
          rw [← e3] at hlt
          exact absurd hlt hstock
        · exact ⟨it, hcase, hexc⟩
      have hall2 : ∀ it ∈ resto, basicOk db it :=
        fun it hmem => hall it (List.mem_cons_of_mem item hmem)
      obtain ⟨m, hm⟩ :=
        ih (t + precio * (cant : Rat)) (acc ++ [⟨idp, cant, precio, "N/A"⟩]) hall2 hex2
      refine ⟨m, ?_⟩
      simp only [validar_productos, hip, hic, hpi, if_neg (by omega : ¬idp ≤ 0),
        if_neg (by omega : ¬cant ≤ 0), if_neg hstock]
      exact hm

theorem crear_pedido_exito_eq (db : DB) (cl : Cliente) (req : PedidoReq)
    (td : Rat × List DetalleVal)
    (hfresh : db.pedidos.find? (fun p => p.id_pedido == db.next_id_pedido) = none) :
    crear_pedido_exito db cl req td =
      ({ db with
          pedidos := db.pedidos ++ [nuevoPedido db cl req td],
          next_id_pedido := db.next_id_pedido + 1,
          detalle_pedidos := db.detalle_pedidos ++
            filasDetalle db.next_id_detalle_pedido db.next_id_pedido td.2,
          next_id_detalle_pedido := db.next_id_detalle_pedido + td.2.length,
          inventarios := db.inventarios.map (fun inv =>
            { inv with cantidad_disponible :=
                inv.cantidad_disponible - sumCant td.2 inv.id_producto }) },
       Resp.ok 201 ⟨nuevoPedido db cl req td, filasResp db.next_id_detalle_pedido td.2⟩) := by
  have hfind : (insertar_detalles (pedidoInsertado db cl req td) db.next_id_pedido
      td.2).1.pedidos.find? (fun p => p.id_pedido == db.next_id_pedido) =
      some (nuevoPedido db cl req td) := by
    rw [insertar_detalles_eq]
    show (db.pedidos ++ [nuevoPedido db cl req td]).find?
      (fun p => p.id_pedido == db.next_id_pedido) = some (nuevoPedido db cl req td)
    rw [List.find?_append, hfresh]
    simp [nuevoPedido]
  unfold crear_pedido_exito
  rw [hfind, insertar_detalles_eq, insertar_detalles_snd]
  rfl

theorem filasDetalle_filter (dets : List DetalleVal) (n idped : Int) :
    (filasDetalle n idped dets).filter (fun d => d.id_pedido == idped) =
      filasDetalle n idped dets := by
  induction dets generalizing n with
  | nil => simp [filasDetalle]
  | cons d resto ih => simp [filasDetalle, List.filter_cons, ih]

theorem sumSubtotales_filasDetalle (dets : List DetalleVal) (n idped : Int) :
    sumSubtotales (filasDetalle n idped dets) = sumTotal dets := by
  induction dets generalizing n with
  | nil => rfl
  | cons d resto ih => simp [filasDetalle, sumSubtotales, sumTotal, ih, mul_comm]

/-- C2: the pedido row persisted by a successful `crear_pedido` stores
a `total_pedido` equal to the sum, over the `detalle_pedidos` rows of
that same order, of quantity times the captured unit price. -/
theorem c2_total_igual_suma_lineas (db : DB) (uid : Int) (req : PedidoReq)
    (cl : Cliente) (dets : List DetalleVal)
    (hcl : findCliente db uid = some cl)
    (hne : req.productos.isEmpty = false)
    (hmapm : req.productos.mapM (lineaVal db) = some dets)
    (hfreshP : db.pedidos.find? (fun p => p.id_pedido == db.next_id_pedido) = none)
    (hfreshD : db.detalle_pedidos.filter (fun d => d.id_pedido == db.next_id_pedido) = []) :
    ∃ P : Pedido,
      (crear_pedido db uid req false).1.pedidos = db.pedidos ++ [P] ∧
      P.total_pedido =
        sumSubtotales ((crear_pedido db uid req false).1.detalle_pedidos.filter
          (fun d => d.id_pedido == db.next_id_pedido)) := by
  have hv : validar_productos db req.productos 0 [] = .ok (sumTotal dets, dets) := by
    simpa using validar_productos_ok db req.productos dets 0 [] hmapm
  have hcp : crear_pedido db uid req false =
      crear_pedido_exito db cl req (sumTotal dets, dets) := by
    simp [crear_pedido, hne, hcl, hv]
  rw [hcp, crear_pedido_exito_eq db cl req _ hfreshP]
  refine ⟨nuevoPedido db cl req (sumTotal dets, dets), rfl, ?_⟩
  show sumTotal dets = sumSubtotales ((db.detalle_pedidos ++
    filasDetalle db.next_id_detalle_pedido db.next_id_pedido dets).filter
      (fun d => d.id_pedido == db.next_id_pedido))
  rw [List.filter_append, hfreshD, filasDetalle_filter]
  simp [sumSubtotales_filasDetalle]

/-- Witness for C2 on the concrete two-line order: the persisted total
equals the sum of its two line subtotals. -/
theorem c2_total_igual_suma_lineas_witness :
    ∃ P : Pedido,
      (crear_pedido dbA 3 reqXY false).1.pedidos = dbA.pedidos ++ [P] ∧
      P.total_pedido =
        sumSubtotales ((crear_pedido dbA 3 reqXY false).1.detalle_pedidos.filter
          (fun d => d.id_pedido == dbA.next_id_pedido)) :=
  c2_total_igual_suma_lineas dbA 3 reqXY ⟨7, 3, "Calle 1", "Cali", "300"⟩
    [⟨1, 2, 10, "N/A"⟩, ⟨2, 1, 5, "N/A"⟩]
    (by decide) (by decide) (by decide) (by decide) (by decide)

/-- C3: with valid line items over existing products, `crear_pedido`
fails with 400 and no state change when some line exceeds the available
quantity; otherwise it answers 201, decrements each product's
availability by exactly the ordered quantities, and stores a pedido
whose total is the sum of price times quantity. -/
theorem c3_stock_decide_el_pedido (db : DB) (uid : Int) (req : PedidoReq) (cl : Cliente)
    (hcl : findCliente db uid = some cl)
    (hne : req.productos.isEmpty = false) :
    ((∀ item ∈ req.productos, basicOk db item) →
      (∃ item ∈ req.productos, excede db item) →
      ∀ e : Bool, ∃ m, crear_pedido db uid req e = (db, Resp.err 400 m)) ∧
    (∀ dets : List DetalleVal,
      req.productos.mapM (lineaVal db) = some dets →
      db.pedidos.find? (fun p => p.id_pedido == db.next_id_pedido) = none →
      (∃ pl, (crear_pedido db uid req false).2 = Resp.ok 201 pl) ∧
      (crear_pedido db uid req false).1.inventarios =
        db.inventarios.map (fun inv =>
          { inv with cantidad_disponible :=
              inv.cantidad_disponible - sumCant dets inv.id_producto }) ∧
      (∃ P : Pedido, (crear_pedido db uid req false).1.pedidos = db.pedidos ++ [P] ∧
        P.total_pedido = sumTotal dets ∧ P.estado_pedido = "Pendiente")) := by
  constructor
  · intro hall hex e
    obtain ⟨m, hm⟩ := validar_productos_insuficiente db req.productos 0 [] hall hex
    exact ⟨m, by simp [crear_pedido, hne, hcl, hm]⟩
  · intro dets hmapm hfresh
    have hv : validar_productos db req.productos 0 [] = .ok (sumTotal dets, dets) := by
      simpa using validar_productos_ok db req.productos dets 0 [] hmapm
    have hcp : crear_pedido db uid req false =
        crear_pedido_exito db cl req (sumTotal dets, dets) := by
      simp [crear_pedido, hne, hcl, hv]
    rw [hcp, crear_pedido_exito_eq db cl req _ hfresh]
    exact ⟨⟨_, rfl⟩, rfl, ⟨nuevoPedido db cl req (sumTotal dets, dets), rfl, rfl, rfl⟩⟩

/-- Witness for C3: ordering 6 of product X (stock 5) fails with 400
and leaves `dbA` unchanged, while the spec's two-line order (2 of X at
10, 1 of Y at 5) succeeds, leaves stocks 3 and 0, and stores total
10·2 + 5·1. -/
theorem c3_stock_decide_el_pedido_witness :
    (∃ m, crear_pedido dbA 3 reqZ6 false = (dbA, Resp.err 400 m)) ∧
    ((∃ pl, (crear_pedido dbA 3 reqXY false).2 = Resp.ok 201 pl) ∧
     (crear_pedido dbA 3 reqXY false).1.inventarios =
       dbA.inventarios.map (fun inv =>
         { inv with cantidad_disponible := inv.cantidad_disponible -
             sumCant [⟨1, 2, 10, "N/A"⟩, ⟨2, 1, 5, "N/A"⟩] inv.id_producto }) ∧
     (∃ P : Pedido, (crear_pedido dbA 3 reqXY false).1.pedidos = dbA.pedidos ++ [P] ∧
       P.total_pedido = sumTotal [⟨1, 2, 10, "N/A"⟩, ⟨2, 1, 5, "N/A"⟩] ∧
       P.estado_pedido = "Pendiente")) :=
  ⟨(c3_stock_decide_el_pedido dbA 3 reqZ6 ⟨7, 3, "Calle 1", "Cali", "300"⟩
      (by decide) (by decide)).1
      (by
        intro item h
        have hitem : item = ⟨some 1, some 6⟩ := by simpa [reqZ6] using h
        subst hitem
        exact ⟨1, 6, 10, 5, rfl, by decide, rfl, by decide, by decide⟩)
      ⟨⟨some 1, some 6⟩, by simp [reqZ6], 1, 6, (10, 5), rfl, rfl, by decide, by decide⟩
      false,
   (c3_stock_decide_el_pedido dbA 3 reqXY ⟨7, 3, "Calle 1", "Cali", "300"⟩
      (by decide) (by decide)).2
      [⟨1, 2, 10, "N/A"⟩, ⟨2, 1, 5, "N/A"⟩] (by decide) (by decide)⟩

/-- C8: adding a positive quantity of an existing product to the cart
merges with any existing (customer, product) line — the resulting
quantity is existing + requested, or just the requested quantity for a
new line — and when the resulting quantity exceeds the advisory stock
read, the request fails with 400 and the cart is untouched. -/
theorem c8_carrito_agregar_acumula (db : DB) (uid : Int) (req : CarritoReq)
    (idp cant : Int) (cl : Cliente) (nombre : String) (precio : Rat) (disp : Int)
    (hip : req.id_producto = some idp) (hipos : 0 < idp)
    (hic : req.cantidad = some cant) (hcpos : 0 < cant)
    (hcl : findCliente db uid = some cl)
    (hprod : productoInventarioCarrito db idp = some (nombre, precio, disp)) :
    (∀ e : ItemCarrito,
      db.carrito.find? (fun c => c.id_cliente == cl.id_cliente && c.id_producto == idp) =
        some e →
      0 ≤ e.cantidad → e.cantidad + cant ≤ disp →
      (agregar_producto_al_carrito db uid req).1.carrito =
        db.carrito.map (fun c =>
          if c.id_item_carrito == e.id_item_carrito then
            { c with cantidad := e.cantidad + cant }
          else c) ∧
      (agregar_producto_al_carrito db uid req).2.isErr = false) ∧
    (∀ e : ItemCarrito,
      db.carrito.find? (fun c => c.id_cliente == cl.id_cliente && c.id_producto == idp) =
        some e →
      0 ≤ e.cantidad → disp < e.cantidad + cant →
      ∃ m, agregar_producto_al_carrito db uid req = (db, Resp.err 400 m)) ∧
    (db.carrito.find? (fun c => c.id_cliente == cl.id_cliente && c.id_producto == idp) =
        none →
      cant ≤ disp →
      (agregar_producto_al_carrito db uid req).1.carrito =
        db.carrito ++ [⟨db.next_id_item_carrito, cl.id_cliente, idp, cant⟩] ∧
      (agregar_producto_al_carrito db uid req).2.isErr = false) ∧
    (db.carrito.find? (fun c => c.id_cliente == cl.id_cliente && c.id_producto == idp) =
        none →
      disp < cant →
      ∃ m, agregar_producto_al_carrito db uid req = (db, Resp.err 400 m)) := by
  have h1 : (idp == 0) = false := by simp; omega
  have h2 : (cant == 0) = false := by simp; omega
  have h3 : ¬idp ≤ 0 := by omega
  have h4 : ¬cant ≤ 0 := by omega
  refine ⟨?_, ?_, ?_, ?_⟩
  · intro e hfind hnn hle
    have hc1 : ¬disp < cant := by omega
    have hc2 : ¬disp < e.cantidad + cant := by omega
    constructor
    · simp [agregar_producto_al_carrito, hip, hic, h1, h2, h3, h4, hcl, hprod, hfind,
        hc1, hc2]
    · simp [agregar_producto_al_carrito, hip, hic, h1, h2, h3, h4, hcl, hprod, hfind,
        hc1, hc2, Resp.isErr]
  · intro e hfind hnn hgt
    by_cases hc1 : disp < cant
    · exact ⟨"Inventario insuficiente para " ++ nombre ++ ".",
        by simp [agregar_producto_al_carrito, hip, hic, h1, h2, h3, h4, hcl, hprod, hc1]⟩
    · exact ⟨"No se puede agregar más. Excede el stock disponible para " ++ nombre ++ ".",
        by simp [agregar_producto_al_carrito, hip, hic, h1, h2, h3, h4, hcl, hprod, hfind,
          hc1, hgt]⟩
  · intro hfind hle
    have hc1 : ¬disp < cant := by omega
    constructor
    · simp [agregar_producto_al_carrito, hip, hic, h1, h2, h3, h4, hcl, hprod, hfind, hc1]
    · simp [agregar_producto_al_carrito, hip, hic, h1, h2, h3, h4, hcl, hprod, hfind, hc1,
        Resp.isErr]
  · intro hfind hc1
    exact ⟨"Inventario insuficiente para " ++ nombre ++ ".",
      by simp [agregar_producto_al_carrito, hip, hic, h1, h2, h3, h4, hcl, hprod, hc1]⟩

/-- Witness for C8, the spec's cart scenario on product A (stock 10):
a first add of 4 inserts a line at quantity 4, adding 4 to a cart
already holding 4 merges to 8, and adding 3 to a cart holding 8 fails
with 400 leaving the cart at 8. -/
theorem c8_carrito_agregar_acumula_witness :
    ((agregar_producto_al_carrito dbCart 3 ⟨some 1, some 4⟩).1.carrito =
       dbCart.carrito ++ [⟨1, 7, 1, 4⟩]) ∧
    ((agregar_producto_al_carrito dbCart4 3 ⟨some 1, some 4⟩).1.carrito =
       dbCart4.carrito.map (fun c =>
         if c.id_item_carrito == 1 then { c with cantidad := 4 + 4 } else c)) ∧
    (∃ m, agregar_producto_al_carrito dbCart8 3 ⟨some 1, some 3⟩ =
       (dbCart8, Resp.err 400 m)) :=
  ⟨((c8_carrito_agregar_acumula dbCart 3 ⟨some 1, some 4⟩ 1 4
      ⟨7, 3, "Calle 1", "Cali", "300"⟩ ("A") 10 10
      rfl (by decide) rfl (by decide) (by decide) (by decide)).2.2.1
      (by decide) (by decide)).1,
   ((c8_carrito_agregar_acumula dbCart4 3 ⟨some 1, some 4⟩ 1 4
      ⟨7, 3, "Calle 1", "Cali", "300"⟩ ("A") 10 10
      rfl (by decide) rfl (by decide) (by decide) (by decide)).1
      ⟨1, 7, 1, 4⟩ (by decide) (by decide) (by decide)).1,
   (c8_carrito_agregar_acumula dbCart8 3 ⟨some 1, some 3⟩ 1 3
      ⟨7, 3, "Calle 1", "Cali", "300"⟩ ("A") 10 10
      rfl (by decide) rfl (by decide) (by decide) (by decide)).2.1
      ⟨1, 7, 1, 8⟩ (by decide) (by decide) (by decide)⟩

end Granja
